import Mathlib

/-!
Shallow embedding of `aliyundrive-webdav`'s `src/main.rs` (the only source
file present): the QR-code login loop (`login`, main.rs:356-400), the startup
wiring in `main` (main.rs:98-177), the basic-auth request dispatch
(`AliyunDriveWebDav::call`, main.rs:254-286), and the clap option defaults
(`Opt`, main.rs:36-95).  The `cache`, `drive`, `vfs` and `login` modules are
not part of the provided sources; where a claim depends on them the
corresponding definition is modelled from the spec and says so in its doc
comment.
-/

/-! ## QR login loop (main.rs:356-400)

The polling loop in `login()` queries the QR-code status up to 10 times,
sleeping 3 seconds before each query.  We embed the loop as a function of the
environment: `polls i` is the outcome of the `i`-th call to
`scan.query(&ck_form).await` (an `Err` models a Rust-level error, which the
`?` operator propagates; an `Ok` carries the decoded response).  The embedding
also records a trace of sleep/poll events so that timing-shaped claims can be
stated.  -/

/-- Result of `query_result.get_mobile_login_result()` (login module): an
optional mobile login payload whose `refresh_token()` accessor is itself
optional. -/
structure MobileLoginResult where
  refresh_token : Option String
deriving DecidableEq

/-- Decoded QR-status response as observed by `login()` in main.rs:373-396:
the `ok()`, `is_new()`, `is_expired()`, `is_confirmed()` predicates and the
`get_mobile_login_result()` accessor. -/
structure QueryQrCodeResult where
  ok : Bool
  is_new : Bool
  is_expired : Bool
  is_confirmed : Bool
  get_mobile_login_result : Option MobileLoginResult
deriving DecidableEq

/-- Events emitted by one run of the login loop: a 3-second sleep
(`tokio::time::sleep`, main.rs:370) and the `i`-th status query
(main.rs:372). -/
inductive LoginEvent where
  | sleepSecs (n : Nat)
  | pollQr (i : Nat)
deriving DecidableEq

/-- One iteration's decision for a successfully-received response
(main.rs:373-397): `none` means the loop falls through to the next iteration
(`continue`, or `ok()` false, or none of the three status predicates holds);
`some r` means the loop terminates with result `r` (`return Ok(token)` on a
confirmed scan, or the error produced by `.context(...)?` when the confirmed
response lacks its payload). -/
def loginStep (q : QueryQrCodeResult) : Option (Except String String) :=
  if q.ok then
    if q.is_new then
      none
    else if q.is_expired then
      none
    else if q.is_confirmed then
      match q.get_mobile_login_result with
      | none => some (.error "failed to get mobile login result")
      | some m =>
        match m.refresh_token with
        | none => some (.error "failed to get refresh token")
        | some t => some (.ok t)
    else
      none
  else
    none

/-- The `for _i in 0..10` loop of main.rs:369-398, with explicit fuel and the
index `i` of the next poll.  Each iteration sleeps 3 seconds then polls; a
Rust-level `Err` from `scan.query` is propagated immediately by `?`
(main.rs:372).  When the fuel is exhausted the function reaches
`anyhow::bail!("Login failed")` (main.rs:399). -/
def loginLoop (polls : Nat → Except String QueryQrCodeResult) :
    Nat → Nat → Except String String × List LoginEvent
  | _, 0 => (.error "Login failed", [])
  | i, fuel + 1 =>
    match polls i with
    | .error e => (.error e, [.sleepSecs 3, .pollQr i])
    | .ok q =>
      match loginStep q with
      | some r => (r, [.sleepSecs 3, .pollQr i])
      | none =>
        let rest := loginLoop polls (i + 1) fuel
        (rest.1, .sleepSecs 3 :: .pollQr i :: rest.2)

/-- Result of `login()` (main.rs:356-400) as a function of the poll
environment. -/
def login (polls : Nat → Except String QueryQrCodeResult) : Except String String :=
  (loginLoop polls 0 10).1

/-- Trace of sleep/poll events performed by `login()`. -/
def loginEvents (polls : Nat → Except String QueryQrCodeResult) : List LoginEvent :=
  (loginLoop polls 0 10).2

/-- The event trace of a loop run that performs `n` polls starting at index
`i`: a 3-second sleep immediately before every poll. -/
def sleepPollPattern : Nat → Nat → List LoginEvent
  | _, 0 => []
  | i, n + 1 => .sleepSecs 3 :: .pollQr i :: sleepPollPattern (i + 1) n

/-- A poll outcome on which the loop body falls through to the next
iteration: a successfully-received response that `loginStep` does not
terminate on. -/
def isContinue : Except String QueryQrCodeResult → Bool
  | .ok q => (loginStep q).isNone
  | .error _ => false

/-- A still-new response: `ok()` holds and `is_new()` holds
(main.rs:375-378). -/
def newResp : QueryQrCodeResult :=
  { ok := true, is_new := true, is_expired := false, is_confirmed := false
    get_mobile_login_result := none }

/-- An expired-unconfirmed response: `ok()` holds, `is_new()` fails and
`is_expired()` holds (main.rs:380-384). -/
def expiredResp : QueryQrCodeResult :=
  { ok := true, is_new := false, is_expired := true, is_confirmed := false
    get_mobile_login_result := none }

/-- A confirmed response carrying refresh token `t` (main.rs:386-395). -/
def confirmedResp (t : String) : QueryQrCodeResult :=
  { ok := true, is_new := false, is_expired := false, is_confirmed := true
    get_mobile_login_result := some ⟨some t⟩ }

theorem loginStep_newResp : loginStep newResp = none := rfl

theorem loginStep_confirmedResp (t : String) :
    loginStep (confirmedResp t) = some (.ok t) := rfl

theorem isContinue_newResp : isContinue (.ok newResp) = true := rfl

theorem isContinue_expiredResp : isContinue (.ok expiredResp) = true := rfl

/-- The event list of a loop run is always a sleep-then-poll pattern of length
at most the fuel. -/
theorem loginLoop_events_pattern (polls : Nat → Except String QueryQrCodeResult) :
    ∀ (fuel i : Nat), ∃ n, n ≤ fuel ∧ (loginLoop polls i fuel).2 = sleepPollPattern i n := by
  intro fuel
  induction fuel with
  | zero => intro i; exact ⟨0, Nat.le_refl 0, rfl⟩
  | succ f ih =>
    intro i
    cases hp : polls i with
    | error e =>
      refine ⟨1, Nat.succ_le_succ (Nat.zero_le f), ?_⟩
      simp [loginLoop, hp, sleepPollPattern]
    | ok q =>
      cases hs : loginStep q with
      | some r =>
        refine ⟨1, Nat.succ_le_succ (Nat.zero_le f), ?_⟩
        simp [loginLoop, hp, hs, sleepPollPattern]
      | none =>
        obtain ⟨n, hn, hpat⟩ := ih (i + 1)
        refine ⟨n + 1, Nat.succ_le_succ hn, ?_⟩
        simp [loginLoop, hp, hs, sleepPollPattern, hpat]

/-- Skipping `k` consecutive fall-through polls: the run starting at index `i`
with fuel `fuel` equals the run starting at `i + k` with fuel `fuel - k`,
prefixed by the corresponding sleep/poll events. -/
theorem loginLoop_skip (polls : Nat → Except String QueryQrCodeResult) :
    ∀ (k i fuel : Nat), k ≤ fuel →
      (∀ j, j < k → isContinue (polls (i + j)) = true) →
      loginLoop polls i fuel =
        ((loginLoop polls (i + k) (fuel - k)).1,
          sleepPollPattern i k ++ (loginLoop polls (i + k) (fuel - k)).2) := by
  intro k
  induction k with
  | zero =>
    intro i fuel _ _
    simp [sleepPollPattern]
  | succ k ih =>
    intro i fuel hk hcont
    cases fuel with
    | zero => exact absurd hk (by omega)
    | succ f =>
      have h0 : isContinue (polls i) = true := by
        have := hcont 0 (Nat.succ_pos k)
        simpa using this
      cases hpz : polls i with
      | error e => rw [hpz] at h0; simp [isContinue] at h0
      | ok q =>
        rw [hpz] at h0
        have hstep : loginStep q = none := by
          simp only [isContinue, Option.isNone_iff_eq_none] at h0
          exact h0
        have hrec := ih (i + 1) f (Nat.le_of_succ_le_succ hk)
          (fun j hj => by
            have := hcont (j + 1) (Nat.succ_lt_succ hj)
            simpa [Nat.add_assoc, Nat.add_comm 1 j] using this)
        have hidx : i + 1 + k = i + (k + 1) := by omega
        have hfuel : f - k = Nat.succ f - (k + 1) := by omega
        calc loginLoop polls i (f + 1)
            = ((loginLoop polls (i + 1) f).1,
                .sleepSecs 3 :: .pollQr i :: (loginLoop polls (i + 1) f).2) := by
              simp [loginLoop, hpz, hstep]
          _ = ((loginLoop polls (i + (k + 1)) (Nat.succ f - (k + 1))).1,
                sleepPollPattern i (k + 1) ++
                  (loginLoop polls (i + (k + 1)) (Nat.succ f - (k + 1))).2) := by
              rw [hrec, hidx, hfuel]
              simp [sleepPollPattern]

/-- Appending one more sleep/poll pair to a pattern. -/
theorem sleepPollPattern_snoc : ∀ (k i : Nat),
    sleepPollPattern i (k + 1) =
      sleepPollPattern i k ++ [.sleepSecs 3, .pollQr (i + k)] := by
  intro k
  induction k with
  | zero => intro i; simp [sleepPollPattern]
  | succ k ih =>
    intro i
    have hx : i + 1 + k = i + (k + 1) := by omega
    calc sleepPollPattern i (k + 1 + 1)
        = .sleepSecs 3 :: .pollQr i :: sleepPollPattern (i + 1) (k + 1) := rfl
      _ = .sleepSecs 3 :: .pollQr i ::
            (sleepPollPattern (i + 1) k ++ [.sleepSecs 3, .pollQr (i + 1 + k)]) := by
          rw [ih (i + 1)]
      _ = sleepPollPattern i (k + 1) ++ [.sleepSecs 3, .pollQr (i + (k + 1))] := by
          rw [hx]; rfl

/-- If the first `k` polls fall through and poll `k` (with `k < 10`) is a
confirmed response carrying token `t`, `login` returns `t`. -/
theorem login_confirmed_within (polls : Nat → Except String QueryQrCodeResult)
    (k : Nat) (t : String) (hk : k < 10)
    (hcont : ∀ i, i < k → isContinue (polls i) = true)
    (hpk : polls k = .ok (confirmedResp t)) :
    login polls = .ok t := by
  have hskip := loginLoop_skip polls k 0 10 (by omega)
    (fun j hj => by simpa using hcont j hj)
  obtain ⟨m, hm⟩ : ∃ m, 10 - k = m + 1 := ⟨9 - k, by omega⟩
  rw [login, hskip]
  simp only [Nat.zero_add, hm, loginLoop, hpk, loginStep_confirmedResp]

/-- If the first `k` polls fall through and poll `k` (with `k < 10`) returns a
Rust-level error `e`, `login` returns `e` after exactly `k + 1` polls. -/
theorem login_error_at (polls : Nat → Except String QueryQrCodeResult)
    (k : Nat) (e : String) (hk : k < 10)
    (hcont : ∀ i, i < k → isContinue (polls i) = true)
    (hpk : polls k = .error e) :
    login polls = .error e ∧ loginEvents polls = sleepPollPattern 0 (k + 1) := by
  have hskip := loginLoop_skip polls k 0 10 (by omega)
    (fun j hj => by simpa using hcont j hj)
  obtain ⟨m, hm⟩ : ∃ m, 10 - k = m + 1 := ⟨9 - k, by omega⟩
  constructor
  · rw [login, hskip]
    simp only [Nat.zero_add, hm, loginLoop, hpk]
  · rw [loginEvents, hskip]
    simp only [Nat.zero_add, hm, loginLoop, hpk]
    rw [sleepPollPattern_snoc k 0]
    simp

/-- If all 10 polls fall through, `login` fails with "Login failed" after
exactly 10 polls. -/
theorem login_all_continue (polls : Nat → Except String QueryQrCodeResult)
    (hcont : ∀ i, i < 10 → isContinue (polls i) = true) :
    login polls = .error "Login failed"
      ∧ loginEvents polls = sleepPollPattern 0 10 := by
  have hskip := loginLoop_skip polls 10 0 10 (Nat.le_refl 10)
    (fun j hj => by simpa using hcont j hj)
  constructor
  · rw [login, hskip]
    simp [loginLoop]
  · rw [loginEvents, hskip]
    simp [loginLoop]

/-! ## Startup wiring in `main` (main.rs:98-177)

`main` is modelled as a pure function of the parsed options and an
environment record standing for its effectful collaborators
(`dirs::cache_dir()`, `read_refresh_token`, `login()`).  The model stops at
the point where `AliyunDrive::new` and `AliyunDriveFileSystem::new` are
called: its successful result is the record of arguments passed to those
constructors, and its boolean component records whether `login()` was
invoked.  The TLS-feature code (`cfg(feature = "rustls-tls")`) is compiled
out in the default build and is not modelled. -/

/-- Parsed command-line options (struct `Opt`, main.rs:36-95).  The
TLS-feature fields and fields that only configure logging or the HTTP layer
downstream of the modelled logic are omitted. -/
structure Opt where
  host : String
  port : Nat
  refresh_token : Option String
  auth_user : Option String
  auth_password : Option String
  auto_index : Bool
  read_buffer_size : Nat
  cache_size : Nat
  cache_ttl : Nat
  root : String
  workdir : Option String
  no_trash : Bool
  domain_id : Option String
  read_only : Bool
deriving DecidableEq

/-- User-supplied command line: `none` (or `false` for a flag) means the
option was not given and clap substitutes its declared default. -/
structure OptInput where
  host : Option String
  port : Option Nat
  refresh_token : Option String
  auth_user : Option String
  auth_password : Option String
  auto_index : Bool
  read_buffer_size : Option Nat
  cache_size : Option Nat
  cache_ttl : Option Nat
  root : Option String
  workdir : Option String
  no_trash : Bool
  domain_id : Option String
  read_only : Bool
deriving DecidableEq

/-- Clap's parsing of `Opt` (main.rs:36-95): each absent option takes the
declared `default_value`; the `no_trash` flag is declared
`conflicts_with = "domain-id"` (main.rs:73), so supplying both is a parse
error. -/
def parseOpt (inp : OptInput) : Except String Opt :=
  if inp.no_trash && inp.domain_id.isSome then
    .error "the argument no-trash cannot be used with domain-id"
  else
    .ok
      { host := inp.host.getD "0.0.0.0"
        port := inp.port.getD 8080
        refresh_token := inp.refresh_token
        auth_user := inp.auth_user
        auth_password := inp.auth_password
        auto_index := inp.auto_index
        read_buffer_size := inp.read_buffer_size.getD 10485760
        cache_size := inp.cache_size.getD 1000
        cache_ttl := inp.cache_ttl.getD 600
        root := inp.root.getD "/"
        workdir := inp.workdir
        no_trash := inp.no_trash
        domain_id := inp.domain_id
        read_only := inp.read_only }

/-- Environment of `main`'s effectful collaborators: `dirs::cache_dir()`
(main.rs:129), the `read_refresh_token(dir).await.ok()` file read
(main.rs:131) and the outcome of `login().await` (main.rs:139). -/
structure MainEnv where
  cache_dir : Option String
  read_token_file : String → Option String
  login_result : Except String String

/-- `DriveConfig` as constructed by `main` (main.rs:143-166). -/
structure DriveConfig where
  api_base_url : String
  refresh_token_url : String
  workdir : Option String
  app_id : Option String
deriving DecidableEq

/-- Modelled from the spec: `get_refresh_token_url` lives in the missing
`drive` module; main.rs:160 calls it with `false` to obtain the non-PDS
token-refresh endpoint URL.  No claim inspects its value, so it is modelled
as an uninterpreted constant string. -/
def get_refresh_token_url (_mobile : Bool) : String :=
  "refresh-token-url"

/-- The test `(auth_user.is_some() && auth_password.is_none()) ||
(auth_user.is_none() && auth_password.is_some())` (main.rs:114-115). -/
def authMisconfigured (opt : Opt) : Bool :=
  (opt.auth_user.isSome && opt.auth_password.isNone)
    || (opt.auth_user.isNone && opt.auth_password.isSome)

/-- `opt.workdir.or_else(|| dirs::cache_dir().map(|c| c.join("aliyundrive-webdav")))`
(main.rs:127-129). -/
def effectiveWorkdir (opt : Opt) (env : MainEnv) : Option String :=
  opt.workdir.orElse fun _ => env.cache_dir.map fun c => c ++ "/aliyundrive-webdav"

/-- `refresh_token_from_file` (main.rs:130-134): the token file is read only
when a working directory exists, and a failed read is discarded by `.ok()`. -/
def tokenFromFile (opt : Opt) (env : MainEnv) : Option String :=
  match effectiveWorkdir opt env with
  | some dir => env.read_token_file dir
  | none => none

/-- The condition guarding the interactive QR login (main.rs:135-138):
no domain id, no refresh-token option/environment variable, no token file. -/
def loginNeeded (opt : Opt) (env : MainEnv) : Bool :=
  opt.domain_id.isNone && opt.refresh_token.isNone && (tokenFromFile opt env).isNone

/-- The `refresh_token` binding of main.rs:135-142: a QR-login token is
prefixed with "mobile:", otherwise `opt.refresh_token.unwrap_or_default()`. -/
def resolveToken (opt : Opt) (env : MainEnv) : Except String String :=
  if loginNeeded opt env then
    match env.login_result with
    | .error e => .error e
    | .ok t => .ok ("mobile:" ++ t)
  else
    .ok (opt.refresh_token.getD "")

/-- The `(drive_config, no_trash)` pair of main.rs:143-166: with a PDS domain
id the config targets the aliyunpds endpoints and `no_trash` is forced `true`
("PDS doesn't have trash support", main.rs:154); otherwise the aliyundrive
endpoints and the user's `no_trash` flag. -/
def driveConfigAndNoTrash (opt : Opt) (env : MainEnv) : DriveConfig × Bool :=
  match opt.domain_id with
  | some domain_id =>
    ({ api_base_url := "https://" ++ domain_id ++ ".api.aliyunpds.com"
       refresh_token_url :=
         "https://" ++ domain_id ++ ".auth.aliyunpds.com/v2/account/token"
       workdir := effectiveWorkdir opt env
       app_id := some "BasicUI" }, true)
  | none =>
    ({ api_base_url := "https://api.aliyundrive.com"
       refresh_token_url := get_refresh_token_url false
       workdir := effectiveWorkdir opt env
       app_id := none }, opt.no_trash)

/-- Arguments with which `main` calls `AliyunDrive::new(drive_config,
refresh_token)` (main.rs:168) and `AliyunDriveFileSystem::new(drive, root,
cache_size, cache_ttl, no_trash, read_only)` (main.rs:169-177). -/
structure FsSetup where
  drive_config : DriveConfig
  drive_refresh_token : String
  fs_root : String
  fs_cache_size : Nat
  fs_cache_ttl : Nat
  fs_no_trash : Bool
  fs_read_only : Bool
deriving DecidableEq

/-- `main` (main.rs:98-177) up to the drive/filesystem construction: an early
`anyhow::bail!`/`?` exit is `.error`, success is the constructor-argument
record.  The second component records whether `login()` was invoked. -/
def mainRun (opt : Opt) (env : MainEnv) : Except String FsSetup × Bool :=
  if authMisconfigured opt then
    (.error "auth-user and auth-password must be specified together.", false)
  else
    match resolveToken opt env with
    | .error e => (.error e, loginNeeded opt env)
    | .ok refresh_token =>
      (.ok
        { drive_config := (driveConfigAndNoTrash opt env).1
          drive_refresh_token := refresh_token
          fs_root := opt.root
          fs_cache_size := opt.cache_size
          fs_cache_ttl := opt.cache_ttl
          fs_no_trash := (driveConfigAndNoTrash opt env).2
          fs_read_only := opt.read_only }, loginNeeded opt env)

/-! ## Basic-auth request dispatch (`AliyunDriveWebDav::call`, main.rs:254-286) -/

/-- The Basic credentials carried by a request, as decoded by
`req.headers().typed_get::<Authorization<Basic>>()` (main.rs:263): `none`
models both a missing Authorization header and one that does not parse as
Basic. -/
structure BasicAuth where
  username : String
  password : String
deriving DecidableEq

/-- The part of an incoming request that `call` inspects. -/
structure DavRequest where
  basic_auth : Option BasicAuth
deriving DecidableEq

/-- The 401 response built at main.rs:271-275. -/
structure HttpResponse where
  status : Nat
  www_authenticate : Option String
  body : String
deriving DecidableEq

/-- Outcome of `call`: either a response built locally (the 401 branch) or the
request forwarded to the WebDAV handler, with `handle_with` carrying the
authenticated principal (main.rs:279-280) and plain `handle` carrying none
(main.rs:282). -/
inductive CallOutcome where
  | respond (r : HttpResponse)
  | handled (principal : Option String)
deriving DecidableEq

/-- The challenge response of main.rs:271-275. -/
def unauthorizedResponse : HttpResponse :=
  { status := 401
    www_authenticate := some "Basic realm=\"aliyundrive-webdav\""
    body := "Authentication required" }

/-- `AliyunDriveWebDav::call` (main.rs:254-286): when both credentials are
configured, a request whose Basic credentials match exactly is forwarded with
the username as principal, and any other request gets the 401 challenge; with
no credentials configured every request is forwarded. -/
def callService (auth_user auth_password : Option String) (req : DavRequest) :
    CallOutcome :=
  let should_auth := auth_user.isSome && auth_password.isSome
  if should_auth then
    let u := auth_user.getD ""
    let p := auth_password.getD ""
    match req.basic_auth with
    | some basic =>
      if basic.username == u && basic.password == p then
        .handled (some basic.username)
      else
        .respond unauthorizedResponse
    | none => .respond unauthorizedResponse
  else
    .handled none

/-! ## Directory-entry cache (spec-modelled)

The `cache` module (`src/cache.rs`) is not among the provided sources; only
its construction parameters appear in main.rs (`cache_size`, `cache_ttl`
passed to `AliyunDriveFileSystem::new`, main.rs:169-177).  The cache itself
is therefore modelled from the spec. -/

/-- Kind of a remote filesystem object (spec §3, `Entry.kind`). -/
inductive FileKind where
  | file
  | directory
deriving DecidableEq

/-- Modelled from the spec (§3 `Entry`): one remote filesystem object. -/
structure Entry where
  id : String
  name : String
  kind : FileKind
  size : Nat
deriving DecidableEq

/-- Modelled from the spec (§3 `CacheEntry`): a cached directory listing
together with its insertion timestamp. -/
structure CacheEntry where
  value : List Entry
  inserted_at : Nat
deriving DecidableEq

/-- Modelled from the spec (§4.2 `EntryCache`, missing `src/cache.rs`): a
path-keyed store of `CacheEntry` values with a construction-time TTL.
Capacity-based LRU eviction (spec §4.2) only removes entries and is
irrelevant to claim C4, so it is not modelled here. -/
structure EntryCache where
  ttl : Nat
  entries : List (String × CacheEntry)

/-- Modelled from the spec (§3): insertion timestamp recorded for a path. -/
def EntryCache.insertedAt (c : EntryCache) (path : String) : Option Nat :=
  (c.entries.find? fun e => e.1 == path).map fun e => e.2.inserted_at

/-- Modelled from the spec (§4.2): `get(path)` returns the cached value only
if the entry is present and unexpired — valid only while
`now - inserted_at < ttl`; an expired entry is logically absent even if still
physically resident. -/
def EntryCache.get (c : EntryCache) (path : String) (now : Nat) :
    Option (List Entry) :=
  match c.entries.find? fun e => e.1 == path with
  | some e => if now - e.2.inserted_at < c.ttl then some e.2.value else none
  | none => none

/-! ## Claim theorems -/

/-- C1: The interactive QR login loop performs at most 10 polls, sleeping 3
seconds before each poll; if some poll within the bound reports confirmed and
yields a refresh token, `login` returns that token, and if no poll within the
bound reports confirmed (e.g. all 10 return "new"), `login` returns a
LoginFailed error rather than panicking. -/
theorem C1_login_bounded_polls_and_outcomes
    (polls : Nat → Except String QueryQrCodeResult) :
    (∃ n, n ≤ 10 ∧ loginEvents polls = sleepPollPattern 0 n)
    ∧ (∀ k t, k < 10 → (∀ i, i < k → isContinue (polls i) = true) →
        polls k = .ok (confirmedResp t) → login polls = .ok t)
    ∧ ((∀ i, i < 10 → polls i = .ok newResp) →
        login polls = .error "Login failed") := by
  refine ⟨loginLoop_events_pattern polls 10 0, ?_, ?_⟩
  · intro k t hk hcont hpk
    exact login_confirmed_within polls k t hk hcont hpk
  · intro hnew
    exact (login_all_continue polls fun i hi => by
      rw [hnew i hi]; exact isContinue_newResp).1

/-- Poll environment where polls 0-8 are still-new and poll 9 is confirmed. -/
def c1PollsOk : Nat → Except String QueryQrCodeResult := fun i =>
  if i = 9 then .ok (confirmedResp "c1-token") else .ok newResp

/-- Poll environment where every poll is still-new. -/
def c1PollsNew : Nat → Except String QueryQrCodeResult := fun _ => .ok newResp

/-- Witness for C1: nine "new" polls then a confirmed tenth poll yields the
token, and ten "new" polls yield the LoginFailed error. -/
theorem C1_login_bounded_polls_and_outcomes_witness :
    login c1PollsOk = .ok "c1-token"
      ∧ login c1PollsNew = .error "Login failed" := by
  constructor
  · exact (C1_login_bounded_polls_and_outcomes c1PollsOk).2.1 9 "c1-token"
      (by omega)
      (fun i hi => by
        simp only [c1PollsOk]
        rw [if_neg (by omega)]
        exact isContinue_newResp)
      rfl
  · exact (C1_login_bounded_polls_and_outcomes c1PollsNew).2.2 fun i _ => rfl

/-- Poll environment where every poll query errors at the Rust level. -/
def c2ErrPolls : Nat → Except String QueryQrCodeResult := fun _ =>
  .error "network error"

/-- C2 counterexample: the claim says failure is reported only after the
bounded poll count (10) is exhausted, never from an individual poll's error
before the bound; but when the very first poll query errors, `login` returns
that error after a single poll (the `?` at main.rs:372), not after 10. -/
theorem C2_counterexample_early_abort :
    login c2ErrPolls = .error "network error"
      ∧ loginEvents c2ErrPolls = sleepPollPattern 0 1
      ∧ sleepPollPattern 0 1 ≠ sleepPollPattern 0 10 :=
  ⟨rfl, rfl, by decide⟩

/-- C2 (amended): a Rust-level error from an individual poll query aborts
`login` immediately with that error (the `?` at main.rs:372); a poll that
yields a response — whether not-ok, still-new, or expired — never aborts the
loop, and when all 10 polls yield non-terminating responses `login` reports
the single terminal "Login failed" error after the full 10 polls. -/
theorem C2_amended_poll_error_aborts_immediately
    (polls : Nat → Except String QueryQrCodeResult) :
    (∀ k e, k < 10 → (∀ i, i < k → isContinue (polls i) = true) →
        polls k = .error e →
        login polls = .error e ∧ loginEvents polls = sleepPollPattern 0 (k + 1))
    ∧ ((∀ i, i < 10 → isContinue (polls i) = true) →
        login polls = .error "Login failed"
          ∧ loginEvents polls = sleepPollPattern 0 10) :=
  ⟨fun k e hk hcont hpk => login_error_at polls k e hk hcont hpk,
    fun hcont => login_all_continue polls hcont⟩

/-- Poll environment where polls 0-1 are still-new and poll 2 errors. -/
def c2MixedPolls : Nat → Except String QueryQrCodeResult := fun i =>
  if i = 2 then .error "boom" else .ok newResp

/-- Witness for the amended C2: two "new" polls then an erroring third poll
makes `login` return that error after exactly three polls. -/
theorem C2_amended_poll_error_aborts_immediately_witness :
    login c2MixedPolls = .error "boom"
      ∧ loginEvents c2MixedPolls = sleepPollPattern 0 3 :=
  (C2_amended_poll_error_aborts_immediately c2MixedPolls).1 2 "boom"
    (by omega)
    (fun i hi => by
      simp only [c2MixedPolls]
      rw [if_neg (by omega)]
      exact isContinue_newResp)
    rfl

/-- C3: a poll response classified expired-unconfirmed never terminates the
loop by itself — `loginStep` falls through on every ok-and-expired response —
the loop continues to the next poll, a later confirmed poll within the bound
still returns the token, and failure due to expiry is only reported after the
10 poll attempts are exhausted. -/
theorem C3_expired_poll_continues
    (polls : Nat → Except String QueryQrCodeResult) :
    (∀ q : QueryQrCodeResult, q.ok = true → q.is_expired = true →
        loginStep q = none)
    ∧ (∀ k t, k < 10 →
        (∀ i, i < k → polls i = .ok expiredResp ∨ polls i = .ok newResp) →
        polls k = .ok (confirmedResp t) → login polls = .ok t)
    ∧ ((∀ i, i < 10 → polls i = .ok expiredResp) →
        login polls = .error "Login failed") := by
  refine ⟨?_, ?_, ?_⟩
  · intro q hok hexp
    cases hn : q.is_new <;> simp [loginStep, hok, hexp, hn]
  · intro k t hk hcont hpk
    refine login_confirmed_within polls k t hk (fun i hi => ?_) hpk
    rcases hcont i hi with h | h <;> rw [h]
    · exact isContinue_expiredResp
    · exact isContinue_newResp
  · intro hexp
    exact (login_all_continue polls fun i hi => by
      rw [hexp i hi]; exact isContinue_expiredResp).1

/-- Poll environment where polls 0-4 are expired-unconfirmed and poll 5 is
confirmed. -/
def c3Polls : Nat → Except String QueryQrCodeResult := fun i =>
  if i = 5 then .ok (confirmedResp "c3-token") else .ok expiredResp

/-- Witness for C3: the expired response does not terminate the loop, and
five expired polls followed by a confirmed sixth poll still yield the
token. -/
theorem C3_expired_poll_continues_witness :
    loginStep expiredResp = none ∧ login c3Polls = .ok "c3-token" := by
  constructor
  · exact (C3_expired_poll_continues c3Polls).1 expiredResp rfl rfl
  · exact (C3_expired_poll_continues c3Polls).2.1 5 "c3-token" (by omega)
      (fun i hi => Or.inl (by simp only [c3Polls]; rw [if_neg (by omega)]))
      rfl

/-- C4: whenever `EntryCache.get` returns a value for a path, the entry is
unexpired — `now - inserted_at < ttl`; an entry whose TTL has elapsed is
never observably returned by `get`, even if still physically resident. -/
theorem C4_cache_get_only_unexpired (c : EntryCache) (path : String)
    (now : Nat) (v : List Entry) (h : c.get path now = some v) :
    ∃ ins, c.insertedAt path = some ins ∧ now - ins < c.ttl := by
  unfold EntryCache.get at h
  split at h
  next e heq =>
    split at h
    next hlt =>
      exact ⟨e.2.inserted_at, by unfold EntryCache.insertedAt; rw [heq]; rfl, hlt⟩
    next => exact absurd h (by simp)
  next => exact absurd h (by simp)

/-- A concrete cache with a 600-second TTL holding one entry for "/a"
inserted at time 100; at time 400 the entry is still observable. -/
def c4Cache : EntryCache :=
  { ttl := 600
    entries := [("/a", { value := [{ id := "i1", name := "f", kind := .file
                                     size := 7 }], inserted_at := 100 })] }

/-- Witness for C4 at the concrete cache, path "/a" and time 400. -/
theorem C4_cache_get_only_unexpired_witness :
    ∃ ins, c4Cache.insertedAt "/a" = some ins ∧ 400 - ins < c4Cache.ttl :=
  C4_cache_get_only_unexpired c4Cache "/a" 400
    [{ id := "i1", name := "f", kind := .file, size := 7 }] rfl

/-- Fields of a successful `mainRun`: the constructor-argument record carries
exactly the option values and the derived drive configuration. -/
theorem mainRun_ok_fields (opt : Opt) (env : MainEnv) (s : FsSetup)
    (hs : (mainRun opt env).1 = .ok s) :
    s.drive_config = (driveConfigAndNoTrash opt env).1
    ∧ resolveToken opt env = .ok s.drive_refresh_token
    ∧ s.fs_root = opt.root
    ∧ s.fs_cache_size = opt.cache_size
    ∧ s.fs_cache_ttl = opt.cache_ttl
    ∧ s.fs_no_trash = (driveConfigAndNoTrash opt env).2
    ∧ s.fs_read_only = opt.read_only := by
  by_cases hauth : authMisconfigured opt
  · rw [mainRun, if_pos hauth] at hs
    exact absurd hs (by simp)
  · rw [mainRun, if_neg hauth] at hs
    cases hr : resolveToken opt env with
    | error e =>
      rw [hr] at hs
      exact absurd hs (by simp)
    | ok tok =>
      rw [hr] at hs
      have hs' : Except.ok
          ({ drive_config := (driveConfigAndNoTrash opt env).1
             drive_refresh_token := tok
             fs_root := opt.root
             fs_cache_size := opt.cache_size
             fs_cache_ttl := opt.cache_ttl
             fs_no_trash := (driveConfigAndNoTrash opt env).2
             fs_read_only := opt.read_only } : FsSetup) = Except.ok s := hs
      cases hs'
      exact ⟨rfl, rfl, rfl, rfl, rfl, rfl, rfl⟩

/-- The login-invoked flag of `mainRun`: false on the auth-validation bail,
otherwise exactly the `loginNeeded` condition. -/
theorem mainRun_snd (opt : Opt) (env : MainEnv) :
    (mainRun opt env).2 =
      if authMisconfigured opt then false else loginNeeded opt env := by
  unfold mainRun
  split
  · rfl
  · cases hr : resolveToken opt env <;> rfl

/-- C5: when the user supplies no cache configuration, clap substitutes its
declared defaults (`cache_ttl` 600, `cache_size` 1000, main.rs:60-65) and
`main` passes exactly these to the filesystem constructor
(main.rs:169-177). -/
theorem C5_default_cache_config (inp : OptInput) (env : MainEnv) (opt : Opt)
    (s : FsSetup) (hsize : inp.cache_size = none) (httl : inp.cache_ttl = none)
    (hp : parseOpt inp = .ok opt) (hs : (mainRun opt env).1 = .ok s) :
    s.fs_cache_ttl = 600 ∧ s.fs_cache_size = 1000 := by
  have hopt : opt.cache_size = 1000 ∧ opt.cache_ttl = 600 := by
    unfold parseOpt at hp
    split at hp
    · exact absurd hp (by simp)
    · cases hp
      exact ⟨by simp [hsize], by simp [httl]⟩
  obtain ⟨_, _, _, hsz, httl', _, _⟩ := mainRun_ok_fields opt env s hs
  exact ⟨by rw [httl', hopt.2], by rw [hsz, hopt.1]⟩

/-- Environment with no OS cache directory, no readable token file and a
successful QR login. -/
def plainEnv : MainEnv :=
  { cache_dir := none
    read_token_file := fun _ => none
    login_result := .ok "qr-token" }

/-- Command line that supplies a refresh token and nothing else. -/
def c5Input : OptInput :=
  { host := none, port := none, refresh_token := some "rt", auth_user := none
    auth_password := none, auto_index := false, read_buffer_size := none
    cache_size := none, cache_ttl := none, root := none, workdir := none
    no_trash := false, domain_id := none, read_only := false }

/-- The options `c5Input` parses to. -/
def c5Opt : Opt :=
  { host := "0.0.0.0", port := 8080, refresh_token := some "rt"
    auth_user := none, auth_password := none, auto_index := false
    read_buffer_size := 10485760, cache_size := 1000, cache_ttl := 600
    root := "/", workdir := none, no_trash := false, domain_id := none
    read_only := false }

/-- The non-PDS drive configuration with no working directory. -/
def nonPdsConfig : DriveConfig :=
  { api_base_url := "https://api.aliyundrive.com"
    refresh_token_url := get_refresh_token_url false
    workdir := none
    app_id := none }

/-- The constructor arguments produced by `mainRun c5Opt plainEnv`. -/
def c5Setup : FsSetup :=
  { drive_config := nonPdsConfig
    drive_refresh_token := "rt"
    fs_root := "/"
    fs_cache_size := 1000
    fs_cache_ttl := 600
    fs_no_trash := false
    fs_read_only := false }

/-- Witness for C5 at a concrete command line with no cache options. -/
theorem C5_default_cache_config_witness :
    c5Setup.fs_cache_ttl = 600 ∧ c5Setup.fs_cache_size = 1000 :=
  C5_default_cache_config c5Input plainEnv c5Opt c5Setup rfl rfl rfl rfl

/-- C6: whenever a PDS domain id is configured the filesystem is constructed
with permanent delete (`no_trash = true`) regardless of the user's `no_trash`
flag (main.rs:154); without a domain id the user's flag is used
(main.rs:164). -/
theorem C6_domain_id_forces_no_trash (opt : Opt) (env : MainEnv) (s : FsSetup)
    (hs : (mainRun opt env).1 = .ok s) :
    (opt.domain_id.isSome = true → s.fs_no_trash = true)
    ∧ (opt.domain_id = none → s.fs_no_trash = opt.no_trash) := by
  obtain ⟨_, _, _, _, _, hnt, _⟩ := mainRun_ok_fields opt env s hs
  constructor
  · intro hd
    cases hdom : opt.domain_id with
    | none => rw [hdom] at hd; cases hd
    | some d => rw [hnt]; unfold driveConfigAndNoTrash; rw [hdom]
  · intro hd
    rw [hnt]; unfold driveConfigAndNoTrash; rw [hd]

/-- Options with a PDS domain id (and the `no_trash` flag left false). -/
def c6OptPds : Opt :=
  { c5Opt with domain_id := some "corp" }

/-- Options without a domain id and with the `no_trash` flag set. -/
def c6OptPlain : Opt :=
  { c5Opt with no_trash := true }

/-- Constructor arguments produced by `mainRun c6OptPds plainEnv`. -/
def c6SetupPds : FsSetup :=
  { drive_config :=
      { api_base_url := "https://" ++ "corp" ++ ".api.aliyunpds.com"
        refresh_token_url :=
          "https://" ++ "corp" ++ ".auth.aliyunpds.com/v2/account/token"
        workdir := none
        app_id := some "BasicUI" }
    drive_refresh_token := "rt"
    fs_root := "/"
    fs_cache_size := 1000
    fs_cache_ttl := 600
    fs_no_trash := true
    fs_read_only := false }

/-- Constructor arguments produced by `mainRun c6OptPlain plainEnv`. -/
def c6SetupPlain : FsSetup :=
  { c5Setup with fs_no_trash := true }

/-- Witness for C6: the PDS options force `no_trash`, and without a domain id
the user's flag (here `true`) is passed through. -/
theorem C6_domain_id_forces_no_trash_witness :
    c6SetupPds.fs_no_trash = true ∧ c6SetupPlain.fs_no_trash = true := by
  constructor
  · exact (C6_domain_id_forces_no_trash c6OptPds plainEnv c6SetupPds rfl).1 rfl
  · exact (C6_domain_id_forces_no_trash c6OptPlain plainEnv c6SetupPlain rfl).2 rfl

/-- The boolean `loginNeeded` condition, propositionally. -/
theorem loginNeeded_eq_true_iff (opt : Opt) (env : MainEnv) :
    loginNeeded opt env = true ↔
      opt.domain_id = none ∧ opt.refresh_token = none
        ∧ tokenFromFile opt env = none := by
  unfold loginNeeded
  simp [Bool.and_eq_true, Option.isNone_iff_eq_none, and_assoc]

/-- Options whose auth configuration fails startup validation (user without
password) and which carry no token source at all. -/
def c7Opt : Opt :=
  { c5Opt with refresh_token := none, auth_user := some "alice" }

/-- C7 counterexample: with a username but no password, startup bails on the
auth validation (main.rs:114-118) before ever reaching the login decision, so
`login()` is not invoked even though the domain id, the refresh-token option
and the token file are all absent — refuting "main() runs login() exactly
when ... all absent". -/
theorem C7_counterexample_auth_bail_skips_login :
    c7Opt.domain_id = none ∧ c7Opt.refresh_token = none
      ∧ tokenFromFile c7Opt plainEnv = none
      ∧ (mainRun c7Opt plainEnv).2 = false :=
  ⟨rfl, rfl, rfl, rfl⟩

/-- C7 (amended): `login()` is invoked exactly when startup validation passes
(the auth options are consistent) and the domain id option, the refresh-token
option/environment variable, and a readable token file are all absent; in
particular, whenever any of these token sources is present, or validation
fails, no QR login occurs. -/
theorem C7_amended_login_iff_no_token_available (opt : Opt) (env : MainEnv) :
    (mainRun opt env).2 = true ↔
      authMisconfigured opt = false
        ∧ opt.domain_id = none ∧ opt.refresh_token = none
        ∧ tokenFromFile opt env = none := by
  rw [mainRun_snd]
  cases hauth : authMisconfigured opt with
  | true => simp [hauth]
  | false => simp [hauth, loginNeeded_eq_true_iff]

/-- Options with no token source and consistent (absent) auth options. -/
def c7GoodOpt : Opt :=
  { c5Opt with refresh_token := none }

/-- Witness for the amended C7: with consistent auth options and no token
source at all, `mainRun` invokes the QR login. -/
theorem C7_amended_login_iff_no_token_available_witness :
    (mainRun c7GoodOpt plainEnv).2 = true :=
  (C7_amended_login_iff_no_token_available c7GoodOpt plainEnv).mpr
    ⟨rfl, rfl, rfl, rfl⟩

/-- C8: while basic-auth credentials are configured, a request with no (or
non-Basic) Authorization header, or with Basic credentials whose username or
password differ from the configured pair, gets a 401 response carrying the
WWW-Authenticate Basic challenge and is not forwarded to the WebDAV handler;
a request with exactly matching credentials is forwarded. -/
theorem C8_basic_auth_challenge (u p : String) (req : DavRequest) :
    (req.basic_auth = none →
      callService (some u) (some p) req = .respond unauthorizedResponse)
    ∧ (∀ b, req.basic_auth = some b → (b.username ≠ u ∨ b.password ≠ p) →
      callService (some u) (some p) req = .respond unauthorizedResponse)
    ∧ (∀ b, req.basic_auth = some b → b.username = u → b.password = p →
      callService (some u) (some p) req = .handled (some u)) := by
  refine ⟨?_, ?_, ?_⟩
  · intro h
    simp [callService, h]
  · intro b hb hne
    rcases hne with h | h <;> simp [callService, hb, h]
  · intro b hb hu hp2
    simp [callService, hb, hu, hp2]

/-- A request with no Authorization header. -/
def c8ReqNone : DavRequest := { basic_auth := none }

/-- A request with the right username but the wrong password. -/
def c8ReqBad : DavRequest :=
  { basic_auth := some { username := "admin", password := "wrong" } }

/-- A request with exactly the configured credentials. -/
def c8ReqGood : DavRequest :=
  { basic_auth := some { username := "admin", password := "secret" } }

/-- Witness for C8 with configured credentials admin/secret: the header-less
and wrong-password requests get the 401 challenge, the matching request is
forwarded with the username as principal. -/
theorem C8_basic_auth_challenge_witness :
    callService (some "admin") (some "secret") c8ReqNone =
        .respond unauthorizedResponse
      ∧ callService (some "admin") (some "secret") c8ReqBad =
        .respond unauthorizedResponse
      ∧ callService (some "admin") (some "secret") c8ReqGood =
        .handled (some "admin") :=
  ⟨(C8_basic_auth_challenge "admin" "secret" c8ReqNone).1 rfl,
    (C8_basic_auth_challenge "admin" "secret" c8ReqBad).2.1 _ rfl
      (Or.inr (by decide)),
    (C8_basic_auth_challenge "admin" "secret" c8ReqGood).2.2 _ rfl rfl rfl⟩

/-- C9: if exactly one of `auth_user` and `auth_password` is supplied, `main`
returns the validation error (main.rs:114-118) before constructing the drive,
the filesystem, or the server — `mainRun` produces no constructor-argument
record and does not invoke `login()`. -/
theorem C9_auth_pair_required (opt : Opt) (env : MainEnv)
    (h : (opt.auth_user.isSome = true ∧ opt.auth_password = none)
      ∨ (opt.auth_user = none ∧ opt.auth_password.isSome = true)) :
    mainRun opt env =
      (.error "auth-user and auth-password must be specified together.",
        false) := by
  have hauth : authMisconfigured opt = true := by
    unfold authMisconfigured
    rcases h with ⟨h1, h2⟩ | ⟨h1, h2⟩ <;> simp [h1, h2]
  rw [mainRun, if_pos hauth]

/-- Options supplying a password but no username. -/
def c9Opt : Opt :=
  { c5Opt with auth_password := some "pw" }

/-- Witness for C9 at options carrying only a password. -/
theorem C9_auth_pair_required_witness :
    mainRun c9Opt plainEnv =
      (.error "auth-user and auth-password must be specified together.",
        false) :=
  C9_auth_pair_required c9Opt plainEnv (Or.inr ⟨rfl, rfl⟩)

/-- C10: a refresh token obtained through the interactive QR login is passed
to the drive constructor prefixed with "mobile:" (main.rs:139), whereas a
token supplied via the option/environment variable is passed through
unmodified (main.rs:141). -/
theorem C10_login_token_mobile_prefixed (opt : Opt) (env : MainEnv) (s : FsSetup)
    (hs : (mainRun opt env).1 = .ok s) :
    ((mainRun opt env).2 = true →
      ∀ t, env.login_result = .ok t →
        s.drive_refresh_token = "mobile:" ++ t)
    ∧ (∀ t, opt.refresh_token = some t → s.drive_refresh_token = t) := by
  obtain ⟨_, htok, _⟩ := mainRun_ok_fields opt env s hs
  constructor
  · intro hlogin t hlt
    have hln : loginNeeded opt env = true := by
      rw [mainRun_snd] at hlogin
      by_cases hauth : authMisconfigured opt
      · rw [if_pos hauth] at hlogin; cases hlogin
      · rw [if_neg hauth] at hlogin; exact hlogin
    unfold resolveToken at htok
    rw [hln, hlt] at htok
    simp only [if_true] at htok
    injection htok with h
    exact h.symm
  · intro t ht
    have hln : loginNeeded opt env = false := by
      unfold loginNeeded
      simp [ht]
    unfold resolveToken at htok
    rw [hln, ht] at htok
    simp at htok
    exact htok.symm

/-- Options with no token source, so the QR login supplies the token. -/
def c10LoginOpt : Opt :=
  { c5Opt with refresh_token := none }

/-- Constructor arguments produced by `mainRun c10LoginOpt plainEnv`: the
QR-login token arrives "mobile:"-prefixed. -/
def c10LoginSetup : FsSetup :=
  { c5Setup with drive_refresh_token := "mobile:" ++ "qr-token" }

/-- Constructor arguments produced by `mainRun c5Opt plainEnv`: the
option-supplied token "rt" arrives unmodified. -/
def c10OptSetup : FsSetup :=
  { c5Setup with drive_refresh_token := "rt" }

/-- Witness for C10: with no token source the drive receives
"mobile:qr-token"; with the option set to "rt" it receives "rt". -/
theorem C10_login_token_mobile_prefixed_witness :
    c10LoginSetup.drive_refresh_token = "mobile:" ++ "qr-token"
      ∧ c10OptSetup.drive_refresh_token = "rt" :=
  ⟨(C10_login_token_mobile_prefixed c10LoginOpt plainEnv c10LoginSetup rfl).1 rfl "qr-token" rfl,
    (C10_login_token_mobile_prefixed c5Opt plainEnv c10OptSetup rfl).2 "rt" rfl⟩
